import Mathlib

/-!
Verification of the endpoint lifecycle state machine and the hixie Receiver
of the websocket_server repository, shallowly embedded from
`lib/WebSocket.js` and `lib/Receiver.hixie.js`.

Modelling conventions:
  * JavaScript values that may be `undefined` become `Option` values; the
    JS `x || d` default is `jsOrNat` / `jsOrStr` (`0` and `""` are falsy).
  * `this.emit(evt)` reaches user listeners only while the library has not
    called `removeAllListeners` on the endpoint; `emitE` models this.
  * The sender is modelled by wire-output records (`Out.sentClose`,
    `Out.sentPing`, ...); its completion callback is invoked with no error.
  * `socket.end()` never throws in the model, so the catch branch of
    `terminate` is unreachable here.
  * Asynchronous Node events (socket `end`/`close`/`error`, the close
    timer, the delayed HTTP `upgrade`) are explicit operations of a step
    relation; their firing conditions (socket attached, timer armed,
    request pending) are the JS listener-registration conditions.
-/

namespace WS

/-- JS `x || d` on an optional number (`0` is falsy). -/
def jsOrNat (o : Option Nat) (d : Nat) : Nat :=
  match o with
  | some n => if n = 0 then d else n
  | none => d

/-- JS `x || d` on an optional string (`""` is falsy). -/
def jsOrStr (o : Option String) (d : String) : String :=
  match o with
  | some m => if m = "" then d else m
  | none => d

/-- Ready states of `WebSocket.js` (`CONNECTING`..`CLOSED`, indices 0..3). -/
inductive ReadyState
  | CONNECTING
  | OPEN
  | CLOSING
  | CLOSED
deriving DecidableEq

/-- Arguments captured by a `send` call (`data`, `options.mask`, callback). -/
structure SendArgs where
  data : List Nat
  maskOpt : Option Bool
  hasCb : Bool
deriving DecidableEq

/-- An entry of the per-endpoint `_queue`: a deferred `send` or `stream`
closure, exactly as pushed by `WebSocket.prototype.send` / `stream`. -/
inductive QCall
  | qsend (a : SendArgs)
  | qstream
deriving DecidableEq

/-- Endpoint state: the fields of a `WebSocket.js` instance used by the
lifecycle machinery, plus the modelled environment (socket attachment,
pending HTTP upgrade request, listener removal). -/
structure Endpoint where
  readyState : ReadyState
  isServer : Bool
  closeReceived : Bool
  closeCode : Option Nat
  closeMessage : Option String
  closeTimer : Option Nat
  socket : Bool
  socketEnded : Bool
  socketDestroyed : Bool
  reqPending : Bool
  listenersRemoved : Bool
  queue : Option (List QCall)
deriving DecidableEq

/-- Observable outputs: user events (post `removeAllListeners` filtering)
and frames handed to the Sender. -/
inductive Out
  | openEvt
  | closeEvt (code : Option Nat) (reason : Option String)
  | errorEvt
  | pingEvt (payload : List Nat)
  | sentClose (code : Option Nat) (reason : Option String) (mask : Bool)
  | sentPing (payload : List Nat) (mask : Bool)
  | sentPong (payload : List Nat) (mask : Bool)
  | sentFrame (payload : List Nat) (mask : Bool) (fin : Bool)
deriving DecidableEq

/-- Outcome of a public call: normal return, synchronous throw, silent
return (`dontFailWhenClosed`), or error delivered to the callback. -/
inductive CallRes
  | ok
  | thrown
  | silent
  | cbErr
deriving DecidableEq

/-- Model of `this.emit(e)`: delivered only while user listeners are attached. -/
def emitE (s : Endpoint) (e : Out) : List Out :=
  if s.listenersRemoved then [] else [e]

/-- Constant `closeTimeout` of WebSocket.js: 30 * 1000 ms. -/
def closeTimeout : Nat := 30 * 1000

/-- Model of `cleanupWebsocketResources(error)`: idempotent transition to CLOSED,
defaulting the close code to 1006 on error or missing close frame, then
emitting the single `close` event and releasing the socket. -/
def cleanup (err : Bool) (s : Endpoint) : Endpoint × List Out :=
  if s.readyState = .CLOSED then (s, [])
  else
    let cc := if err || !s.closeReceived then some 1006 else s.closeCode
    let evts := emitE s (.closeEvt (some (jsOrNat cc 1000)) (some (jsOrStr s.closeMessage "")))
    ({ s with
        readyState := .CLOSED
        closeTimer := none
        closeCode := cc
        socket := false
        socketEnded := s.socketEnded || (s.socket && !err)
        socketDestroyed := s.socketDestroyed || (s.socket && err)
        listenersRemoved := true
        queue := none }, evts)

/-- Model of `WebSocket.prototype.terminate`. -/
def wsTerminate (s : Endpoint) : Endpoint × List Out :=
  if s.readyState = .CLOSED then (s, [])
  else if s.socket then
    ({ s with readyState := .CLOSING, socketEnded := true, closeTimer := some closeTimeout }, [])
  else if s.readyState = .CONNECTING then cleanup true s
  else (s, [])

/-- Model of `WebSocket.prototype.close(code, data)`, with the sender completion
callback run with no error. -/
def wsClose (code : Option Nat) (reason : Option String) (s : Endpoint) :
    Endpoint × List Out :=
  if s.readyState = .CLOSED then (s, [])
  else if s.readyState = .CONNECTING then
    ({ s with readyState := .CLOSED }, [])
  else if s.readyState = .CLOSING then
    (if s.closeReceived && s.isServer then wsTerminate s else (s, []))
  else
    let s1 := { s with readyState := .CLOSING, closeCode := code, closeMessage := reason }
    let sent := [Out.sentClose code reason (!s.isServer)]
    if s1.closeReceived && s1.isServer then
      let r := wsTerminate s1
      (r.1, sent ++ r.2)
    else
      ({ s1 with closeTimer := some closeTimeout }, sent)

/-- Model of `WebSocket.prototype.ping(data, options, dontFailWhenClosed)`. -/
def wsPing (data : List Nat) (maskOpt : Option Bool) (dontFail : Bool) (s : Endpoint) :
    Endpoint × List Out × CallRes :=
  if s.readyState ≠ .OPEN then
    if dontFail then (s, [], .silent) else (s, [], .thrown)
  else
    (s, [.sentPing data (maskOpt.getD (!s.isServer))], .ok)

/-- Model of `WebSocket.prototype.pong(data, options, dontFailWhenClosed)`. -/
def wsPong (data : List Nat) (maskOpt : Option Bool) (dontFail : Bool) (s : Endpoint) :
    Endpoint × List Out × CallRes :=
  if s.readyState ≠ .OPEN then
    if dontFail then (s, [], .silent) else (s, [], .thrown)
  else
    (s, [.sentPong data (maskOpt.getD (!s.isServer))], .ok)

/-- Model of `WebSocket.prototype.send(data, options, cb)` for non-stream data:
fail fast outside OPEN, enqueue while a streamed message is in progress,
else hand the finished frame to the Sender. -/
def wsSend (a : SendArgs) (s : Endpoint) : Endpoint × List Out × CallRes :=
  if s.readyState ≠ .OPEN then
    (s, [], if a.hasCb then .cbErr else .thrown)
  else
    match s.queue with
    | some q => ({ s with queue := some (q ++ [.qsend a]) }, [], .ok)
    | none => (s, [.sentFrame a.data (a.maskOpt.getD (!s.isServer)) true], .ok)

/-- Model of `WebSocket.prototype.stream(options, cb)`: callback required, fail
fast outside OPEN, enqueue while a stream is active, else install the
send queue (`startQueue`). -/
def wsStream (hasCb : Bool) (s : Endpoint) : Endpoint × List Out × CallRes :=
  if !hasCb then (s, [], .thrown)
  else if s.readyState ≠ .OPEN then (s, [], .cbErr)
  else
    match s.queue with
    | some q => ({ s with queue := some (q ++ [.qstream]) }, [], .ok)
    | none => ({ s with queue := some [] }, [], .ok)

/-- Replay of one queued closure. -/
def runQCall (c : QCall) (s : Endpoint) : Endpoint × List Out :=
  match c with
  | .qsend a => let r := wsSend a s; (r.1, r.2.1)
  | .qstream => let r := wsStream true s; (r.1, r.2.1)

/-- Replay of the queued closures in FIFO order. -/
def runQueue : List QCall → Endpoint → Endpoint × List Out
  | [], s => (s, [])
  | c :: cs, s =>
      let r1 := runQCall c s
      let r2 := runQueue cs r1.1
      (r2.1, r1.2 ++ r2.2)

/-- Model of `executeQueueSends`: remove the queue, then run every entry in order. -/
def executeQueueSends (s : Endpoint) : Endpoint × List Out :=
  match s.queue with
  | none => (s, [])
  | some q => runQueue q { s with queue := none }

/-- Receiver `onping` handler of `establishConnection`: autoreply a pong
(non-throwing variant, mask = `!this._isServer`), then notify the user. -/
def onpingFn (data : List Nat) (s : Endpoint) : Endpoint × List Out :=
  let r := wsPong data (some (!s.isServer)) true s
  (r.1, r.2.1 ++ emitE r.1 (.pingEvt data))

/-- Receiver `onclose` handler: record the close frame, reciprocate. -/
def recvCloseFrame (code : Option Nat) (reason : Option String) (s : Endpoint) :
    Endpoint × List Out :=
  wsClose code reason { s with closeReceived := true }

/-- Receiver `onerror` handler: `close(errorCode, '')` then emit `error`. -/
def recvErrorFn (code : Option Nat) (s : Endpoint) : Endpoint × List Out :=
  let r := wsClose code (some "") s
  (r.1, r.2 ++ emitE r.1 .errorEvt)

/-- Delayed client `upgrade` handler: a close during CONNECTING left the
endpoint CLOSED, so emit a bare `close` and drop the socket; otherwise
`establishConnection` attaches the socket and fires `open`. -/
def upgradeOkFn (s : Endpoint) : Endpoint × List Out :=
  if !s.reqPending then (s, [])
  else if s.readyState = .CLOSED then
    (({ s with reqPending := false, listenersRemoved := true }),
      emitE s (.closeEvt none none))
  else
    let s1 := { s with reqPending := false, socket := true, readyState := .OPEN }
    (s1, emitE s1 .openEvt)

/-- Client `upgrade` handler when the handshake is rejected (bad server
key, bad subprotocol, bad extension parameter): emit `error` and remove
all listeners, leaving the ready state alone. -/
def upgradeFailFn (s : Endpoint) : Endpoint × List Out :=
  if !s.reqPending then (s, [])
  else ({ s with reqPending := false, listenersRemoved := true }, emitE s .errorEvt)

/-- The request `error` / `response` handlers: optionally emit `error`,
then `cleanupWebsocketResources(error)`. -/
def reqFailFn (emitsError err : Bool) (s : Endpoint) : Endpoint × List Out :=
  if !s.reqPending then (s, [])
  else
    let e1 := if emitsError then emitE s .errorEvt else []
    let r := cleanup err { s with reqPending := false }
    (r.1, e1 ++ r.2)

/-- The operation alphabet of the endpoint: user calls, receiver events,
socket events, timer expiry, and HTTP-request events. -/
inductive Op
  | userClose (code : Option Nat) (reason : Option String)
  | terminate
  | ping (data : List Nat) (m : Option Bool) (dontFail : Bool)
  | pong (data : List Nat) (m : Option Bool) (dontFail : Bool)
  | send (a : SendArgs)
  | streamCall (hasCb : Bool)
  | flushQueue
  | socketEnd
  | socketClose (hadError : Bool)
  | socketError
  | timerFire
  | upgradeOk
  | upgradeFail
  | reqFail (emitsError err : Bool)
  | recvClose (code : Option Nat) (reason : Option String)
  | recvPing (data : List Nat)
  | recvError (code : Option Nat)

/-- One step of the endpoint machine. Socket events fire only while a
socket is attached, the timer only while armed, request events only while
the upgrade request is pending - the conditions under which the JS
listeners exist. -/
def step (op : Op) (s : Endpoint) : Endpoint × List Out :=
  match op with
  | .userClose c r => wsClose c r s
  | .terminate => wsTerminate s
  | .ping d m df => let r := wsPing d m df s; (r.1, r.2.1)
  | .pong d m df => let r := wsPong d m df s; (r.1, r.2.1)
  | .send a => let r := wsSend a s; (r.1, r.2.1)
  | .streamCall hasCb => let r := wsStream hasCb s; (r.1, r.2.1)
  | .flushQueue => executeQueueSends s
  | .socketEnd => if s.socket then cleanup false s else (s, [])
  | .socketClose he => if s.socket then cleanup he s else (s, [])
  | .socketError => if s.socket then cleanup true s else (s, [])
  | .timerFire => if s.closeTimer.isSome then cleanup true s else (s, [])
  | .upgradeOk => upgradeOkFn s
  | .upgradeFail => upgradeFailFn s
  | .reqFail ee err => reqFailFn ee err s
  | .recvClose c r => recvCloseFrame c r s
  | .recvPing d => onpingFn d s
  | .recvError c => recvErrorFn c s

/-- Run a sequence of operations, accumulating the outputs. -/
def run (s : Endpoint) : List Op → Endpoint × List Out
  | [] => (s, [])
  | op :: ops =>
      let r1 := step op s
      let r2 := run r1.1 ops
      (r2.1, r1.2 ++ r2.2)

/-- Number of `close` events in an output trace. -/
def closeCount (l : List Out) : Nat :=
  (l.filter fun o => match o with | .closeEvt _ _ => true | _ => false).length

/-- A freshly constructed client endpoint, after `initAsClient` returned:
CONNECTING, no socket yet, upgrade request pending. -/
def clientInit : Endpoint :=
  { readyState := .CONNECTING, isServer := false, closeReceived := false
    closeCode := none, closeMessage := none, closeTimer := none
    socket := false, socketEnded := false, socketDestroyed := false
    reqPending := true, listenersRemoved := false, queue := none }

/-- A server endpoint right after `establishConnection`: OPEN with an
attached socket. -/
def serverOpen : Endpoint :=
  { readyState := .OPEN, isServer := true, closeReceived := false
    closeCode := none, closeMessage := none, closeTimer := none
    socket := true, socketEnded := false, socketDestroyed := false
    reqPending := false, listenersRemoved := false, queue := none }

end WS

namespace Hixie

/-!
Shallow embedding of `lib/Receiver.hixie.js`. Byte buffers are `List Nat`;
the JS fields `messageEnd` and `spanLength` are `Int` (`messageEnd` takes
the value -1). The `while (data) data = doAdd();` loop runs as long as
`doAdd` returns a tail buffer (a JS Buffer, even an empty one, is truthy,
so the first iteration always runs); it is modelled with a fuel bound of
`2 * length + 2`, enough for every real execution since each iteration
either consumes a byte or moves from BINARYBODY into the EMPTY state.
-/

/-- Parser states of the hixie Receiver. -/
inductive RState
  | EMPTY
  | BODY
  | BINARYLENGTH
  | BINARYBODY
deriving DecidableEq

/-- The hixie Receiver's mutable fields. -/
structure Rcv where
  state : RState
  buffers : List (List Nat)
  messageEnd : Int
  spanLength : Int
  dead : Bool
deriving DecidableEq

/-- Events the Receiver dispatches through its callback slots. -/
inductive REvt
  | closeEvt
  | textEvt (payload : List Nat)
  | errorEvt (terminate : Bool)
deriving DecidableEq

/-- A freshly constructed Receiver. -/
def rcvInit : Rcv :=
  { state := .EMPTY, buffers := [], messageEnd := -1, spanLength := 0, dead := false }

/-- Model of `reset()`: a no-op once the receiver is dead. -/
def rreset (r : Rcv) : Rcv :=
  if r.dead then r
  else { r with state := .EMPTY, buffers := [], messageEnd := -1, spanLength := 0 }

/-- Model of `cleanup()`: mark dead and drop the buffers. -/
def rcleanup (r : Rcv) : Rcv :=
  { r with dead := true, state := .EMPTY, buffers := [] }

/-- JS `Buffer.prototype.indexOf`: first index of the byte, else -1. -/
def jsIndexOf (x : Nat) (l : List Nat) : Int :=
  if l.indexOf x = l.length then -1 else (l.indexOf x : Int)

/-- JS `Buffer.prototype.slice(start)` with a possibly negative start. -/
def jsSliceFrom (l : List Nat) (start : Int) : List Nat :=
  if start < 0 then l.drop (max 0 ((l.length : Int) + start)).toNat
  else l.drop start.toNat

/-- The BINARYLENGTH scan loop: consume continuation bytes (high bit set)
into `messageEnd`, then one final byte; report whether the length field
was completed and return the unconsumed bytes. -/
def binLenScan : Int → List Nat → Int × Bool × List Nat
  | me, [] => (me, false, [])
  | me, b :: rest =>
      if b &&& 0x80 ≠ 0 then binLenScan (128 * me + ((b &&& 0x7f : Nat) : Int)) rest
      else (128 * me + ((b &&& 0x7f : Nat) : Int), true, rest)

/-- Model of `parse()`: flatten the buffered spans into the message payload,
compute the unconsumed tail of the last buffer, reset, and dispatch
`ontext`. (The JS code allocates `spanLength` bytes; in every state the
parser reaches, the copied bytes fill that allocation exactly.) -/
def parse (r : Rcv) : Rcv × List REvt × Option (List Nat) :=
  let lastBuffer := r.buffers.getLast?.getD []
  let output := r.buffers.dropLast.flatten ++
    (if r.messageEnd > 0 then lastBuffer.take r.messageEnd.toNat else [])
  let me := if r.state ≠ .BODY then r.messageEnd - 1 else r.messageEnd
  let tail :=
    if me < (lastBuffer.length : Int) - 1 then some (jsSliceFrom lastBuffer (me + 1))
    else none
  (rreset r, [.textEvt output], tail)

/-- The BINARYBODY block and the trailing text-body block of `doAdd`. -/
def doAddAfterLen (r : Rcv) (data : List Nat) : Rcv × List REvt × Option (List Nat) :=
  if r.state = .BINARYBODY then
    let dataleft := r.messageEnd - r.spanLength
    if (data.length : Int) ≥ dataleft then
      parse { r with buffers := r.buffers ++ [data],
                     spanLength := r.spanLength + dataleft, messageEnd := dataleft }
    else
      ({ r with buffers := r.buffers ++ [data],
                spanLength := r.spanLength + data.length }, [], none)
  else
    let r1 := { r with buffers := r.buffers ++ [data] }
    let idx := jsIndexOf 0xFF data
    if idx ≠ -1 then
      parse { r1 with messageEnd := idx, spanLength := r1.spanLength + idx }
    else
      ({ r1 with messageEnd := idx, spanLength := r1.spanLength + data.length }, [], none)

/-- The BINARYLENGTH block of `doAdd`. -/
def doAddAfterEmpty (r : Rcv) (data : List Nat) : Rcv × List REvt × Option (List Nat) :=
  if r.state = .BINARYLENGTH then
    let sc := binLenScan r.messageEnd data
    doAddAfterLen
      { r with messageEnd := sc.1, state := if sc.2.1 then .BINARYBODY else .BINARYLENGTH }
      sc.2.2
  else doAddAfterLen r data

/-- One call of the `doAdd` closure inside `Receiver.prototype.add`. -/
def doAdd (r : Rcv) (data : List Nat) : Rcv × List REvt × Option (List Nat) :=
  if r.state = .EMPTY then
    if data = [0xFF, 0x00] then (rreset r, [.closeEvt], none)
    else if data.head? = some 0x80 then
      doAddAfterEmpty { r with messageEnd := 0, state := .BINARYLENGTH } data.tail
    else if data.head? ≠ some 0x00 then (rreset r, [.errorEvt true], none)
    else doAddAfterEmpty { r with state := .BODY } data.tail
  else doAddAfterEmpty r data

/-- The `while (data) data = doAdd();` loop, fuelled. -/
def addLoop : Nat → Rcv → List Nat → Rcv × List REvt
  | 0, r, _ => (r, [])
  | fuel + 1, r, data =>
      let r1 := doAdd r data
      match r1.2.2 with
      | none => (r1.1, r1.2.1)
      | some tl =>
          let r2 := addLoop fuel r1.1 tl
          (r2.1, r1.2.1 ++ r2.2)

/-- Model of `Receiver.prototype.add(data)`. -/
def add (r : Rcv) (data : List Nat) : Rcv × List REvt :=
  addLoop (2 * data.length + 2) r data

end Hixie

namespace WS

/-- Evaluation of `jsOrNat` on the forced abnormal-closure code. -/
theorem jsOrNat_abnormal : jsOrNat (some 1006) 1000 = 1006 := rfl

/-- C4 (as stated, refuted): on an OPEN server endpoint with an attached
socket, `terminate()` does not force the ready state to CLOSED: it ends
the socket but only moves the endpoint to CLOSING; CLOSED is reached when
the socket close event later triggers the cleanup. -/
theorem claim_C4_counterexample :
    serverOpen.socket = true ∧ serverOpen.readyState = .OPEN ∧
    (wsTerminate serverOpen).1.readyState = .CLOSING ∧
    ¬ (wsTerminate serverOpen).1.readyState = .CLOSED := by decide

/-- C4 (amended): for every endpoint with an attached live socket that is
not already CLOSED, `terminate()` ends the socket immediately, moves the
endpoint to CLOSING, arms the 30 s cleanup timer, and the subsequent
socket close event forces the ready state to CLOSED. -/
theorem claim_C4_amended (s : Endpoint) (hs : s.socket = true)
    (h : s.readyState ≠ .CLOSED) :
    (wsTerminate s).1.socketEnded = true ∧
    (wsTerminate s).1.readyState = .CLOSING ∧
    (wsTerminate s).1.closeTimer = some closeTimeout ∧
    (wsTerminate s).2 = [] ∧
    (step (.socketClose false) (wsTerminate s).1).1.readyState = .CLOSED := by
  simp [wsTerminate, h, hs, step, cleanup]

/-- Witness for C4 (amended) at the concrete OPEN server endpoint. -/
theorem claim_C4_amended_witness :
    (wsTerminate serverOpen).1.socketEnded = true ∧
    (wsTerminate serverOpen).1.readyState = .CLOSING ∧
    (wsTerminate serverOpen).1.closeTimer = some closeTimeout ∧
    (wsTerminate serverOpen).2 = [] ∧
    (step (.socketClose false) (wsTerminate serverOpen).1).1.readyState = .CLOSED :=
  claim_C4_amended serverOpen (by decide) (by decide)

/-- C5: outside OPEN, `ping`/`pong` throw a not-opened error (or return
silently when `dontFailWhenClosed` is true) and `send` throws or delivers
the error to its callback; in every case the endpoint state is unchanged
and nothing reaches the Sender. -/
theorem claim_C5 (s : Endpoint) (d : List Nat) (m : Option Bool) (df : Bool)
    (a : SendArgs) (h : s.readyState ≠ .OPEN) :
    wsPing d m df s = (s, [], if df then .silent else .thrown) ∧
    wsPong d m df s = (s, [], if df then .silent else .thrown) ∧
    wsSend a s = (s, [], if a.hasCb then .cbErr else .thrown) := by
  obtain ⟨ad, am, ac⟩ := a
  cases df <;> cases ac <;> refine ⟨?_, ?_, ?_⟩ <;> simp [wsPing, wsPong, wsSend, h]

/-- Witness for C5 on a CONNECTING client endpoint. -/
theorem claim_C5_witness :
    wsPing [104] none false clientInit = (clientInit, [], .thrown) ∧
    wsPong [104] none true clientInit = (clientInit, [], .silent) ∧
    wsSend ⟨[104], none, true⟩ clientInit = (clientInit, [], .cbErr) :=
  ⟨(claim_C5 clientInit [104] none false ⟨[104], none, true⟩ (by decide)).1,
    (claim_C5 clientInit [104] none true ⟨[104], none, true⟩ (by decide)).2.1,
    (claim_C5 clientInit [104] none false ⟨[104], none, true⟩ (by decide)).2.2⟩

/-- C6: while OPEN, a Receiver PING with payload `d` makes the endpoint
hand the Sender a PONG echoing `d`, masked exactly when the endpoint is a
client (mask = not isServer), and emit a `ping` event to the user. -/
theorem claim_C6 (s : Endpoint) (d : List Nat) (h : s.readyState = .OPEN)
    (hl : s.listenersRemoved = false) :
    onpingFn d s = (s, [.sentPong d (!s.isServer), .pingEvt d]) := by
  simp [onpingFn, wsPong, emitE, h, hl]

/-- C2: when a live endpoint reaches CLOSED through the socket `end`,
`close` or `error` events, the close event carries code 1006 whenever no
close frame was received or an error forced the cleanup, and otherwise
the recorded code, defaulting to 1000 when none was recorded. -/
theorem claim_C2 (s : Endpoint) (he : Bool) (hsock : s.socket = true)
    (h : s.readyState ≠ .CLOSED) (hl : s.listenersRemoved = false) :
    (step .socketEnd s).2 =
      [.closeEvt (some (if s.closeReceived then jsOrNat s.closeCode 1000 else 1006))
        (some (jsOrStr s.closeMessage ""))] ∧
    (step .socketError s).2 = [.closeEvt (some 1006) (some (jsOrStr s.closeMessage ""))] ∧
    (step (.socketClose he) s).2 =
      [.closeEvt (some (if he || !s.closeReceived then 1006 else jsOrNat s.closeCode 1000))
        (some (jsOrStr s.closeMessage ""))] ∧
    (step .socketEnd s).1.readyState = .CLOSED ∧
    (step .socketError s).1.readyState = .CLOSED ∧
    (step (.socketClose he) s).1.readyState = .CLOSED := by
  cases hcr : s.closeReceived <;> cases he <;>
    simp [step, cleanup, emitE, jsOrNat_abnormal, h, hsock, hl, hcr]

/-- Witness for C2: a socket error on the OPEN server endpoint yields a
close event with code 1006. -/
theorem claim_C2_witness :
    (step .socketEnd serverOpen).2 = [.closeEvt (some 1006) (some "")] ∧
    (step .socketError serverOpen).2 = [.closeEvt (some 1006) (some "")] ∧
    (step (.socketClose false) serverOpen).2 = [.closeEvt (some 1006) (some "")] ∧
    (step .socketEnd serverOpen).1.readyState = .CLOSED ∧
    (step .socketError serverOpen).1.readyState = .CLOSED ∧
    (step (.socketClose false) serverOpen).1.readyState = .CLOSED :=
  claim_C2 serverOpen false (by decide) (by decide) (by decide)

/-- C3: `close(code, reason)` on an OPEN endpoint (with its live socket)
arms the close timer with exactly 30000 ms, and when that timer fires on
an endpoint whose handshake has not completed (not yet CLOSED), the
endpoint is forced to CLOSED with close code 1006. -/
theorem claim_C3 (s t : Endpoint) (c : Option Nat) (r : Option String)
    (hs : s.readyState = .OPEN) (hsock : s.socket = true)
    (ht : t.closeTimer.isSome = true) (ht2 : t.readyState ≠ .CLOSED)
    (hl : t.listenersRemoved = false) :
    closeTimeout = 30000 ∧
    (wsClose c r s).1.closeTimer = some 30000 ∧
    (step .timerFire t).1.readyState = .CLOSED ∧
    (step .timerFire t).1.closeCode = some 1006 ∧
    (step .timerFire t).2 = [.closeEvt (some 1006) (some (jsOrStr t.closeMessage ""))] := by
  refine ⟨rfl, ?_, ?_, ?_, ?_⟩
  · cases hb : (s.closeReceived && s.isServer) <;>
      simp [wsClose, wsTerminate, hs, hsock, hb, closeTimeout]
  all_goals simp [step, cleanup, emitE, jsOrNat_abnormal, ht, ht2, hl]

/-- Witness for C3: closing the OPEN server endpoint arms the 30 s timer;
firing it on the resulting CLOSING endpoint forces CLOSED with 1006. -/
theorem claim_C3_witness :
    closeTimeout = 30000 ∧
    (wsClose (some 1000) (some "bye") serverOpen).1.closeTimer = some 30000 ∧
    (step .timerFire (wsClose (some 1000) (some "bye") serverOpen).1).1.readyState = .CLOSED ∧
    (step .timerFire (wsClose (some 1000) (some "bye") serverOpen).1).1.closeCode = some 1006 ∧
    (step .timerFire (wsClose (some 1000) (some "bye") serverOpen).1).2 =
      [.closeEvt (some 1006) (some "bye")] :=
  claim_C3 serverOpen (wsClose (some 1000) (some "bye") serverOpen).1
    (some 1000) (some "bye") (by decide) (by decide) (by decide) (by decide) (by decide)

/-- Replaying a queue of plain `send` closures on an OPEN endpoint whose
queue slot was already removed transmits them in FIFO order and leaves
the endpoint unchanged. -/
theorem runQueue_sends (qs : List SendArgs) (s : Endpoint)
    (hs : s.readyState = .OPEN) (hq : s.queue = none) :
    runQueue (qs.map .qsend) s =
      (s, qs.map fun b => Out.sentFrame b.data (b.maskOpt.getD (!s.isServer)) true) := by
  induction qs with
  | nil => simp [runQueue]
  | cons b bs ih => simp [runQueue, runQCall, wsSend, hs, hq, ih]

/-- C7: while the per-endpoint send queue is installed, a concurrent
`send` and a concurrent `stream` call are appended to the queue (nothing
is transmitted), and `executeQueueSends` replays a queue of send calls in
FIFO call order once the stream finalizes. -/
theorem claim_C7 (s t : Endpoint) (q : List QCall) (qs : List SendArgs) (a : SendArgs)
    (hs : s.readyState = .OPEN) (hq : s.queue = some q)
    (ht : t.readyState = .OPEN) (htq : t.queue = some (qs.map .qsend)) :
    wsSend a s = ({ s with queue := some (q ++ [.qsend a]) }, [], .ok) ∧
    wsStream true s = ({ s with queue := some (q ++ [.qstream]) }, [], .ok) ∧
    executeQueueSends t =
      ({ t with queue := none },
        qs.map fun b => Out.sentFrame b.data (b.maskOpt.getD (!t.isServer)) true) := by
  refine ⟨by simp [wsSend, hs, hq], by simp [wsStream, hs, hq], ?_⟩
  have hrun := runQueue_sends qs { t with queue := none } (by simpa using ht) (by simp)
  simpa [executeQueueSends, htq] using hrun

/-- Witness for C7 on the OPEN server endpoint with one queued send. -/
theorem claim_C7_witness :
    wsSend ⟨[2], none, false⟩ { serverOpen with queue := some [.qsend ⟨[1], none, false⟩] } =
      ({ serverOpen with queue := some [.qsend ⟨[1], none, false⟩, .qsend ⟨[2], none, false⟩] },
        [], .ok) ∧
    wsStream true { serverOpen with queue := some [.qsend ⟨[1], none, false⟩] } =
      ({ serverOpen with queue := some [.qsend ⟨[1], none, false⟩, .qstream] }, [], .ok) ∧
    executeQueueSends { serverOpen with queue := some [.qsend ⟨[1], none, false⟩] } =
      ({ serverOpen with queue := none }, [.sentFrame [1] false true]) :=
  claim_C7 { serverOpen with queue := some [.qsend ⟨[1], none, false⟩] }
    { serverOpen with queue := some [.qsend ⟨[1], none, false⟩] }
    [.qsend ⟨[1], none, false⟩] [⟨[1], none, false⟩] ⟨[2], none, false⟩
    (by decide) (by decide) (by decide) (by decide)

/-- Every close event emitted by the cleanup carries a code and a reason. -/
theorem cleanup_no_bare (err : Bool) (s : Endpoint) :
    Out.closeEvt none none ∉ (cleanup err s).2 := by
  by_cases h1 : s.readyState = .CLOSED
  · simp [cleanup, h1]
  · by_cases h2 : s.listenersRemoved <;> simp [cleanup, emitE, h1, h2]

/-- The function `wsTerminate` never emits a bare (code-less) close event. -/
theorem terminate_no_bare (s : Endpoint) :
    Out.closeEvt none none ∉ (wsTerminate s).2 := by
  by_cases h1 : s.readyState = .CLOSED
  · simp [wsTerminate, h1]
  · by_cases h2 : s.socket
    · simp [wsTerminate, h1, h2]
    · by_cases h3 : s.readyState = .CONNECTING <;>
        simp [wsTerminate, h1, h2, h3, cleanup_no_bare]

/-- The function `wsClose` never emits a bare (code-less) close event. -/
theorem wsClose_no_bare (c : Option Nat) (r : Option String) (s : Endpoint) :
    Out.closeEvt none none ∉ (wsClose c r s).2 := by
  by_cases h1 : s.readyState = .CLOSED
  · simp [wsClose, h1]
  · by_cases h2 : s.readyState = .CONNECTING
    · simp [wsClose, h1, h2]
    · by_cases h3 : s.readyState = .CLOSING <;>
        cases hb : (s.closeReceived && s.isServer) <;>
          simp [wsClose, h1, h2, h3, hb, terminate_no_bare]

/-- The functions `wsPing` and `wsPong` emit no event at all towards the Sender except the
control frame itself. -/
theorem wsPing_out (d : List Nat) (m : Option Bool) (df : Bool) (s : Endpoint) :
    (wsPing d m df s).2.1 = [] ∨
      (wsPing d m df s).2.1 = [.sentPing d (m.getD (!s.isServer))] := by
  by_cases h : s.readyState = .OPEN <;> cases df <;> simp [wsPing, h]

/-- Pong analogue of `wsPing_out`. -/
theorem wsPong_out (d : List Nat) (m : Option Bool) (df : Bool) (s : Endpoint) :
    (wsPong d m df s).2.1 = [] ∨
      (wsPong d m df s).2.1 = [.sentPong d (m.getD (!s.isServer))] := by
  by_cases h : s.readyState = .OPEN <;> cases df <;> simp [wsPong, h]

/-- The function `wsSend` outputs at most one data frame. -/
theorem wsSend_out (a : SendArgs) (s : Endpoint) :
    (wsSend a s).2.1 = [] ∨
      (wsSend a s).2.1 = [.sentFrame a.data (a.maskOpt.getD (!s.isServer)) true] := by
  by_cases h : s.readyState = .OPEN
  · cases hq : s.queue <;> simp [wsSend, h, hq]
  · cases hc : a.hasCb <;> simp [wsSend, h, hc]

/-- The function `wsStream` produces no output by itself. -/
theorem wsStream_out (hc : Bool) (s : Endpoint) : (wsStream hc s).2.1 = [] := by
  cases hc
  · simp [wsStream]
  · by_cases h : s.readyState = .OPEN
    · cases hq : s.queue <;> simp [wsStream, h, hq]
    · simp [wsStream, h]

/-- Queue replay outputs only data frames. -/
theorem runQueue_no_bare (q : List QCall) (s : Endpoint) :
    Out.closeEvt none none ∉ (runQueue q s).2 := by
  induction q generalizing s with
  | nil => simp [runQueue]
  | cons c cs ih =>
      cases c with
      | qsend a =>
          rcases wsSend_out a s with h | h <;>
            simp [runQueue, runQCall, h, ih]
      | qstream =>
          simp [runQueue, runQCall, wsStream_out, ih]

/-- C10: closing a CONNECTING endpoint sets the ready state directly to
CLOSED, sends no close frame, arms no timer and emits nothing; a bare
(code-less) close event is emitted exactly by the delayed upgrade handler
finding the endpoint already CLOSED, and by no other operation. -/
theorem claim_C10 (s t u : Endpoint) (op : Op) (c : Option Nat) (r : Option String)
    (hs : s.readyState = .CONNECTING)
    (ht : t.readyState = .CLOSED) (htp : t.reqPending = true)
    (htl : t.listenersRemoved = false)
    (hmem : Out.closeEvt none none ∈ (step op u).2) :
    wsClose c r s = ({ s with readyState := .CLOSED }, []) ∧
    upgradeOkFn t =
      ({ t with reqPending := false, listenersRemoved := true }, [.closeEvt none none]) ∧
    (op = .upgradeOk ∧ u.readyState = .CLOSED) := by
  refine ⟨by simp [wsClose, hs], by simp [upgradeOkFn, emitE, ht, htp, htl], ?_⟩
  cases op with
  | userClose c' r' => exact absurd hmem (wsClose_no_bare c' r' u)
  | terminate => exact absurd hmem (terminate_no_bare u)
  | ping d m df =>
      rcases wsPing_out d m df u with h | h <;> simp [step, h] at hmem
  | pong d m df =>
      rcases wsPong_out d m df u with h | h <;> simp [step, h] at hmem
  | send a =>
      rcases wsSend_out a u with h | h <;> simp [step, h] at hmem
  | streamCall hc => simp [step, wsStream_out] at hmem
  | flushQueue =>
      cases hq : u.queue with
      | none => simp [step, executeQueueSends, hq] at hmem
      | some ql =>
          simp only [step, executeQueueSends, hq] at hmem
          exact absurd hmem (runQueue_no_bare ql _)
  | socketEnd =>
      by_cases h : u.socket <;> simp [step, h, cleanup_no_bare] at hmem
  | socketClose he =>
      by_cases h : u.socket <;> simp [step, h, cleanup_no_bare] at hmem
  | socketError =>
      by_cases h : u.socket <;> simp [step, h, cleanup_no_bare] at hmem
  | timerFire =>
      by_cases h : u.closeTimer.isSome <;> simp [step, h, cleanup_no_bare] at hmem
  | upgradeOk =>
      refine ⟨rfl, ?_⟩
      by_cases h1 : u.reqPending
      · by_cases h2 : u.readyState = .CLOSED
        · exact h2
        · simp [step, upgradeOkFn, emitE, h1, h2] at hmem
      · simp [step, upgradeOkFn, h1] at hmem
  | upgradeFail =>
      by_cases h1 : u.reqPending <;>
        by_cases h2 : u.listenersRemoved <;>
          simp [step, upgradeFailFn, emitE, h1, h2] at hmem
  | reqFail ee err =>
      by_cases h1 : u.reqPending
      · cases ee <;>
          by_cases h2 : u.listenersRemoved <;>
            simp [step, reqFailFn, emitE, h1, h2, cleanup_no_bare] at hmem
      · simp [step, reqFailFn, h1] at hmem
  | recvClose c' r' => exact absurd hmem (wsClose_no_bare c' r' _)
  | recvPing d =>
      rcases wsPong_out d (some (!u.isServer)) true u with h | h <;>
        by_cases h2 : (wsPong d (some (!u.isServer)) true u).1.listenersRemoved <;>
          simp [step, onpingFn, emitE, h, h2] at hmem
  | recvError c' =>
      by_cases h2 : (wsClose c' (some "") u).1.listenersRemoved <;>
        simp only [step, recvErrorFn, emitE, h2, if_true, if_false] at hmem <;>
        rw [List.mem_append] at hmem <;>
        rcases hmem with hmem | hmem <;>
          first
          | exact absurd hmem (wsClose_no_bare c' (some "") u)
          | simp at hmem

/-- Witness for C10: a CONNECTING client closed by the user, then the
delayed upgrade arriving on the now-CLOSED endpoint. -/
theorem claim_C10_witness :
    wsClose (some 1000) none clientInit =
      ({ clientInit with readyState := .CLOSED }, []) ∧
    upgradeOkFn { clientInit with readyState := .CLOSED } =
      ({ clientInit with
          readyState := .CLOSED
          reqPending := false
          listenersRemoved := true }, [.closeEvt none none]) ∧
    (Op.upgradeOk = Op.upgradeOk ∧
      ({ clientInit with readyState := ReadyState.CLOSED } : Endpoint).readyState =
        .CLOSED) :=
  claim_C10 clientInit { clientInit with readyState := .CLOSED }
    { clientInit with readyState := .CLOSED } .upgradeOk (some 1000) none
    (by decide) (by decide) (by decide) (by decide) (by decide)

/-- Per-step close-event bookkeeping: a step emits at most one close
event, emits none once the listeners were removed, never re-attaches
listeners, and removes the listeners whenever it emits a close event. -/
def CloseStep (s : Endpoint) (p : Endpoint × List Out) : Prop :=
  closeCount p.2 ≤ 1 ∧
  (s.listenersRemoved = true → closeCount p.2 = 0) ∧
  (s.listenersRemoved = true → p.1.listenersRemoved = true) ∧
  (1 ≤ closeCount p.2 → p.1.listenersRemoved = true)

/-- The counter `closeCount` distributes over concatenation. -/
theorem closeCount_append (l1 l2 : List Out) :
    closeCount (l1 ++ l2) = closeCount l1 + closeCount l2 := by
  simp [closeCount, List.filter_append]

/-- A step that emits no close event and keeps the listener flag is safe. -/
theorem closeStep_quiet {s : Endpoint} {p : Endpoint × List Out}
    (hc : closeCount p.2 = 0) (hl : p.1.listenersRemoved = s.listenersRemoved) :
    CloseStep s p := by
  refine ⟨by omega, fun _ => hc, fun h => by rw [hl, h], fun h => by omega⟩

/-- The cleanup obeys the close-event bookkeeping. -/
theorem closeStep_cleanup (err : Bool) (s : Endpoint) : CloseStep s (cleanup err s) := by
  by_cases h1 : s.readyState = .CLOSED
  · exact closeStep_quiet (by simp [cleanup, h1, closeCount]) (by simp [cleanup, h1])
  · by_cases h2 : s.listenersRemoved <;>
      simp [CloseStep, cleanup, emitE, h1, h2, closeCount]

/-- The function `wsTerminate` obeys the close-event bookkeeping. -/
theorem closeStep_terminate (s : Endpoint) : CloseStep s (wsTerminate s) := by
  by_cases h1 : s.readyState = .CLOSED
  · exact closeStep_quiet (by simp [wsTerminate, h1, closeCount]) (by simp [wsTerminate, h1])
  · by_cases h2 : s.socket
    · exact closeStep_quiet (by simp [wsTerminate, h1, h2, closeCount])
        (by simp [wsTerminate, h1, h2])
    · by_cases h3 : s.readyState = .CONNECTING
      · have := closeStep_cleanup true s
        simpa [wsTerminate, h1, h2, h3] using this
      · exact closeStep_quiet (by simp [wsTerminate, h1, h2, h3, closeCount])
          (by simp [wsTerminate, h1, h2, h3])

/-- The function `wsClose` obeys the close-event bookkeeping. -/
theorem closeStep_wsClose (c : Option Nat) (r : Option String) (s : Endpoint) :
    CloseStep s (wsClose c r s) := by
  by_cases h1 : s.readyState = .CLOSED
  · exact closeStep_quiet (by simp [wsClose, h1, closeCount]) (by simp [wsClose, h1])
  · by_cases h2 : s.readyState = .CONNECTING
    · exact closeStep_quiet (by simp [wsClose, h1, h2, closeCount])
        (by simp [wsClose, h1, h2])
    · by_cases h3 : s.readyState = .CLOSING
      · cases hb : (s.closeReceived && s.isServer)
        · exact closeStep_quiet (by simp [wsClose, h1, h2, h3, hb, closeCount])
            (by simp [wsClose, h1, h2, h3, hb])
        · have := closeStep_terminate s
          simpa [wsClose, h1, h2, h3, hb] using this
      · cases hb : (s.closeReceived && s.isServer)
        · exact closeStep_quiet
            (by simp [wsClose, h1, h2, h3, hb, closeCount])
            (by simp [wsClose, h1, h2, h3, hb])
        · have h4 := closeStep_terminate
            { s with readyState := .CLOSING, closeCode := c, closeMessage := r }
          obtain ⟨a1, a2, a3, a4⟩ := h4
          refine ⟨?_, ?_, ?_, ?_⟩ <;>
            simp only [wsClose, h1, h2, h3, hb, if_false, if_true, reduceIte,
              closeCount_append] at * <;>
            simp_all [closeCount]

/-- The function `wsPing` never changes the endpoint state. -/
theorem wsPing_fst (d : List Nat) (m : Option Bool) (df : Bool) (s : Endpoint) :
    (wsPing d m df s).1 = s := by
  by_cases h : s.readyState = .OPEN <;> cases df <;> simp [wsPing, h]

/-- The function `wsPong` never changes the endpoint state. -/
theorem wsPong_fst (d : List Nat) (m : Option Bool) (df : Bool) (s : Endpoint) :
    (wsPong d m df s).1 = s := by
  by_cases h : s.readyState = .OPEN <;> cases df <;> simp [wsPong, h]

/-- The function `wsSend` touches only the queue slot. -/
theorem wsSend_lr (a : SendArgs) (s : Endpoint) :
    (wsSend a s).1.listenersRemoved = s.listenersRemoved := by
  by_cases h : s.readyState = .OPEN
  · cases hq : s.queue <;> simp [wsSend, h, hq]
  · cases hc : a.hasCb <;> simp [wsSend, h, hc]

/-- The function `wsStream` touches only the queue slot. -/
theorem wsStream_lr (hc : Bool) (s : Endpoint) :
    (wsStream hc s).1.listenersRemoved = s.listenersRemoved := by
  cases hc
  · simp [wsStream]
  · by_cases h : s.readyState = .OPEN
    · cases hq : s.queue <;> simp [wsStream, h, hq]
    · simp [wsStream, h]

/-- The function `wsSend` never emits a close event. -/
theorem wsSend_closeCount (a : SendArgs) (s : Endpoint) :
    closeCount (wsSend a s).2.1 = 0 := by
  rcases wsSend_out a s with h | h <;> simp [h, closeCount]

/-- Queue replay emits no close event and keeps the listener flag. -/
theorem runQueue_quiet (q : List QCall) (s : Endpoint) :
    closeCount (runQueue q s).2 = 0 ∧
      (runQueue q s).1.listenersRemoved = s.listenersRemoved := by
  induction q generalizing s with
  | nil => simp [runQueue, closeCount]
  | cons c cs ih =>
      cases c with
      | qsend a =>
          have h1 := wsSend_closeCount a s
          have h2 := wsSend_lr a s
          have h3 := ih (wsSend a s).1
          simp only [runQueue, runQCall, closeCount_append]
          constructor
          · omega
          · rw [h3.2, h2]
      | qstream =>
          have h1 := wsStream_out true s
          have h2 := wsStream_lr true s
          have h3 := ih (wsStream true s).1
          simp only [runQueue, runQCall, closeCount_append, h1]
          constructor
          · simpa [closeCount] using h3.1
          · rw [h3.2, h2]

/-- Every operation of the endpoint machine obeys the close-event
bookkeeping. -/
theorem step_closeStep (op : Op) (s : Endpoint) : CloseStep s (step op s) := by
  cases op with
  | userClose c r => exact closeStep_wsClose c r s
  | terminate => exact closeStep_terminate s
  | ping d m df =>
      refine closeStep_quiet ?_ (by simp [step, wsPing_fst])
      rcases wsPing_out d m df s with h | h <;> simp [step, h, closeCount]
  | pong d m df =>
      refine closeStep_quiet ?_ (by simp [step, wsPong_fst])
      rcases wsPong_out d m df s with h | h <;> simp [step, h, closeCount]
  | send a => exact closeStep_quiet (wsSend_closeCount a s) (wsSend_lr a s)
  | streamCall hc =>
      refine closeStep_quiet ?_ (wsStream_lr hc s)
      simp [step, wsStream_out, closeCount]
  | flushQueue =>
      cases hq : s.queue with
      | none =>
          exact closeStep_quiet (by simp [step, executeQueueSends, hq, closeCount])
            (by simp [step, executeQueueSends, hq])
      | some ql =>
          have h := runQueue_quiet ql { s with queue := none }
          exact closeStep_quiet (by simpa [step, executeQueueSends, hq] using h.1)
            (by simpa [step, executeQueueSends, hq] using h.2)
  | socketEnd =>
      by_cases h : s.socket
      · have := closeStep_cleanup false s; simpa [CloseStep, step, h] using this
      · exact closeStep_quiet (by simp [step, h, closeCount]) (by simp [step, h])
  | socketClose he =>
      by_cases h : s.socket
      · have := closeStep_cleanup he s; simpa [CloseStep, step, h] using this
      · exact closeStep_quiet (by simp [step, h, closeCount]) (by simp [step, h])
  | socketError =>
      by_cases h : s.socket
      · have := closeStep_cleanup true s; simpa [CloseStep, step, h] using this
      · exact closeStep_quiet (by simp [step, h, closeCount]) (by simp [step, h])
  | timerFire =>
      by_cases h : s.closeTimer.isSome
      · have := closeStep_cleanup true s; simpa [CloseStep, step, h] using this
      · exact closeStep_quiet (by simp [step, h, closeCount]) (by simp [step, h])
  | upgradeOk =>
      by_cases h1 : s.reqPending
      · by_cases h2 : s.readyState = .CLOSED <;>
          by_cases h3 : s.listenersRemoved <;>
            simp [CloseStep, step, upgradeOkFn, emitE, h1, h2, h3, closeCount]
      · exact closeStep_quiet (by simp [step, upgradeOkFn, h1, closeCount])
          (by simp [step, upgradeOkFn, h1])
  | upgradeFail =>
      by_cases h1 : s.reqPending
      · by_cases h3 : s.listenersRemoved <;>
          simp [CloseStep, step, upgradeFailFn, emitE, h1, h3, closeCount]
      · exact closeStep_quiet (by simp [step, upgradeFailFn, h1, closeCount])
          (by simp [step, upgradeFailFn, h1])
  | reqFail ee err =>
      by_cases h1 : s.reqPending
      · obtain ⟨a1, a2, a3, a4⟩ := closeStep_cleanup err { s with reqPending := false }
        have hee : closeCount (if ee then emitE s .errorEvt else []) = 0 := by
          cases ee <;> by_cases h3 : s.listenersRemoved <;> simp [emitE, h3, closeCount]
        have hfst : (step (.reqFail ee err) s).1 =
            (cleanup err { s with reqPending := false }).1 := by
          simp [step, reqFailFn, h1]
        have hsnd : closeCount (step (.reqFail ee err) s).2 =
            closeCount (cleanup err { s with reqPending := false }).2 := by
          have hstep : (step (.reqFail ee err) s).2 =
              (if ee then emitE s .errorEvt else []) ++
                (cleanup err { s with reqPending := false }).2 := by
            simp [step, reqFailFn, h1]
          rw [hstep, closeCount_append, hee, Nat.zero_add]
        refine ⟨?_, ?_, ?_, ?_⟩
        · rw [hsnd]; exact a1
        · intro h; rw [hsnd]; exact a2 (by simpa using h)
        · intro h; rw [hfst]; exact a3 (by simpa using h)
        · intro h; rw [hfst]; exact a4 (by rwa [hsnd] at h)
      · exact closeStep_quiet (by simp [step, reqFailFn, h1, closeCount])
          (by simp [step, reqFailFn, h1])
  | recvClose c r =>
      obtain ⟨a1, a2, a3, a4⟩ := closeStep_wsClose c r { s with closeReceived := true }
      exact ⟨a1, fun hl => a2 (by simpa using hl), fun hl => a3 (by simpa using hl), a4⟩
  | recvPing d =>
      refine closeStep_quiet ?_ (by simp [step, onpingFn, wsPong_fst])
      rcases wsPong_out d (some (!s.isServer)) true s with h | h <;>
        by_cases h2 : (wsPong d (some (!s.isServer)) true s).1.listenersRemoved <;>
          simp [step, onpingFn, emitE, h, h2, closeCount]
  | recvError c =>
      obtain ⟨a1, a2, a3, a4⟩ := closeStep_wsClose c (some "") s
      have he2 : closeCount (emitE (wsClose c (some "") s).1 .errorEvt) = 0 := by
        by_cases h2 : (wsClose c (some "") s).1.listenersRemoved <;>
          simp [emitE, h2, closeCount]
      refine ⟨?_, ?_, ?_, ?_⟩ <;>
        simp only [step, recvErrorFn, closeCount_append, he2] at * <;> simp_all

/-- Once the listeners are removed, no further close event is delivered. -/
theorem run_quiet (ops : List Op) (s : Endpoint) (h : s.listenersRemoved = true) :
    closeCount (run s ops).2 = 0 ∧ (run s ops).1.listenersRemoved = true := by
  induction ops generalizing s with
  | nil => simp [run, closeCount, h]
  | cons op ops ih =>
      obtain ⟨a1, a2, a3, a4⟩ := step_closeStep op s
      obtain ⟨b1, b2⟩ := ih (step op s).1 (a3 h)
      have c0 := a2 h
      simp only [run, closeCount_append]
      exact ⟨by omega, b2⟩

/-- C1 (amended): over every operation sequence, at most one close event
is delivered to the user during an endpoint's lifetime. -/
theorem claim_C1_amended (s : Endpoint) (ops : List Op) :
    closeCount (run s ops).2 ≤ 1 := by
  induction ops generalizing s with
  | nil => simp [run, closeCount]
  | cons op ops ih =>
      obtain ⟨a1, a2, a3, a4⟩ := step_closeStep op s
      simp only [run, closeCount_append]
      by_cases h : closeCount (step op s).2 = 0
      · have := ih (step op s).1
        omega
      · have h1 : 1 ≤ closeCount (step op s).2 := by omega
        obtain ⟨hz, -⟩ := run_quiet ops (step op s).1 (a4 h1)
        rw [hz]
        omega

/-- C1 (as stated, refuted): closing a CONNECTING client transitions the
endpoint to CLOSED, yet no close event is emitted at that transition (the
event is deferred to the delayed upgrade handler and may never fire), so
the close event is not emitted precisely when the endpoint transitions to
CLOSED. -/
theorem claim_C1_counterexample :
    clientInit.readyState ≠ .CLOSED ∧
    (step (.userClose (some 1000) none) clientInit).1.readyState = .CLOSED ∧
    closeCount (step (.userClose (some 1000) none) clientInit).2 = 0 ∧
    closeCount (run clientInit [.userClose (some 1000) none]).2 = 0 := by decide

/-- Witness for C6 on the OPEN server endpoint (unmasked pong). -/
theorem claim_C6_witness :
    onpingFn [72, 101, 108, 108, 111] serverOpen =
      (serverOpen, [.sentPong [72, 101, 108, 108, 111] false,
        .pingEvt [72, 101, 108, 108, 111]]) :=
  claim_C6 serverOpen [72, 101, 108, 108, 111] (by decide) (by decide)

end WS

namespace Hixie

/-- C8 (the spec is right, the code is wrong): `add` never consults the
`dead` flag set by `cleanup()`, so on a cleaned-up receiver a hixie close
frame still dispatches the close event, and a 0x00 frame-start byte still
mutates the parser state - `add` is not a no-op after `cleanup()`. -/
theorem claim_C8_bug :
    (add (rcleanup rcvInit) [0xFF, 0x00]).2 = [.closeEvt] ∧
    (add (rcleanup rcvInit) [0x00]).1.state = RState.BODY ∧
    (add (rcleanup rcvInit) [0x00]).1 ≠ rcleanup rcvInit := by decide

/-- C9 (as stated, refuted): on a fresh receiver (state EMPTY), `add`
with an empty chunk reads `data[0]` as `undefined`, concludes the payload
does not start with 0x00, and dispatches an error event - so an empty
`add` is not a no-op and does raise an error. -/
theorem claim_C9_counterexample :
    (add rcvInit []).2 = [.errorEvt true] ∧ (add rcvInit []).2 ≠ [] := by decide

/-- C9 (amended): an empty `add` on a live receiver dispatches an error
and resets the parser when the state is EMPTY; in every other rest state
(for BINARYBODY, one where the frame body is still incomplete) it
dispatches no event and preserves the state tag, the span length and the
buffered bytes, but appends an empty buffer and, outside BINARYBODY,
overwrites the `messageEnd` field with -1. -/
theorem claim_C9_amended (r : Rcv) (_hd : r.dead = false)
    (hb : r.state = .BINARYBODY → r.spanLength < r.messageEnd) :
    (r.state = .EMPTY → add r [] = (rreset r, [.errorEvt true])) ∧
    (r.state ≠ .EMPTY →
      add r [] =
        ({ r with
            buffers := r.buffers ++ [[]]
            messageEnd := if r.state = .BINARYBODY then r.messageEnd else -1 }, [])) := by
  constructor
  · intro h
    simp [add, addLoop, doAdd, h]
  · intro h
    cases hs : r.state with
    | EMPTY => exact absurd hs h
    | BODY =>
        simp [add, addLoop, doAdd, doAddAfterEmpty, doAddAfterLen, jsIndexOf, hs]
    | BINARYLENGTH =>
        simp [add, addLoop, doAdd, doAddAfterEmpty, doAddAfterLen, binLenScan,
          jsIndexOf, hs]
    | BINARYBODY =>
        have hlt : ¬ ((0 : Int) ≥ r.messageEnd - r.spanLength) := by
          have := hb hs
          omega
        simp [add, addLoop, doAdd, doAddAfterEmpty, doAddAfterLen, hs, hlt]

/-- Witness for C9 (amended): empty `add` on a fresh receiver (EMPTY
case) and on a receiver mid-way through a text body (BODY case). -/
theorem claim_C9_amended_witness :
    (add rcvInit [] = (rreset rcvInit, [.errorEvt true])) ∧
    (add { rcvInit with state := .BODY, buffers := [[104]], spanLength := 1 } [] =
      ({ rcvInit with
          state := .BODY
          buffers := [[104], []]
          spanLength := 1
          messageEnd := -1 }, [])) :=
  ⟨(claim_C9_amended rcvInit (by decide) (by decide)).1 (by decide),
    (claim_C9_amended { rcvInit with state := .BODY, buffers := [[104]], spanLength := 1 }
      (by decide) (by decide)).2 (by decide)⟩

end Hixie
